import Mathlib

/-!
Shallow embedding of the CNaaS-NMS fleet configuration synchronization
engine, covering:

* `cnaas_nms/confpush/sync_devices.py` — the per-device variable
  derivation inside `push_sync_device` and the orchestration function
  `sync_devices` (drift gate, fan-out, post-commit state update);
* `cnaas_nms/api/settings.py` — `SettingsApi.get`;
* `cnaas_nms/db/session.py` — the `sqla_session` context manager.

Python dictionaries are embedded as association lists with first-match
lookup; dictionary unpacking `\x7b**a, **b\x7d` becomes `pyDictMerge a b`
(later keys win).  Machine state mutated through the database is threaded
explicitly.  External collaborators (Nornir transport, settings loading,
hash computation, the interface-index parser of the missing
`db/interface.py`) are abstract parameters of the model.
-/

set_option autoImplicit false

namespace Cnaas

/-- Device roles.  The `DeviceType` enumeration lives in
`cnaas_nms/db/device.py`, which is not part of this source tree.
Modelled from the spec: the role is a closed enumeration
ACCESS | DISTRIBUTION | CORE (the code spells the distribution member
`DIST`, as seen in `sync_devices.py` and `db/tests/test_device.py`). -/
inductive DeviceType where
  | ACCESS
  | DIST
  | CORE
  deriving DecidableEq, Repr

/-- Interface configuration classes.  The `InterfaceConfigType`
enumeration lives in `cnaas_nms/db/interface.py`, which is not part of
this source tree.  Modelled from the spec: a closed classification set
(unclassified, auto-access-port, uplink-port, custom-configured); member
names `ACCESS_AUTO` and `ACCESS_UPLINK` are those used by
`sync_devices.py`. -/
inductive InterfaceConfigType where
  | UNKNOWN
  | ACCESS_AUTO
  | ACCESS_UPLINK
  | CUSTOM
  deriving DecidableEq, Repr

/-- A Python value as it appears in the template-variable dictionaries of
`push_sync_device`: strings, integers, lists and string-keyed dicts. -/
inductive VarValue where
  | vstr : String → VarValue
  | vnat : Nat → VarValue
  | vlist : List VarValue → VarValue
  | vdict : List (String × VarValue) → VarValue

/-- A Python dict with string keys, as an insertion-ordered association
list; lookup takes the first matching key. -/
abbrev VarDict := List (String × VarValue)

/-- Python dict unpacking `\x7b**a, **b\x7d`: all keys of `b` with their
values, then the keys of `a` that `b` does not override. -/
def pyDictMerge {α : Type} (a b : List (String × α)) : List (String × α) :=
  b ++ a.filter (fun p => (b.lookup p.1).isNone)

theorem lookup_append {α : Type} (k : String) (xs ys : List (String × α)) :
    List.lookup k (xs ++ ys) =
      (List.lookup k xs).orElse (fun _ => List.lookup k ys) := by
  induction xs with
  | nil => simp [List.lookup]
  | cons p rest ih =>
    cases p with
    | mk k' v =>
      by_cases h : k = k'
      · simp [List.lookup, h]
      · have hb : (k == k') = false := beq_false_of_ne h
        simp [List.lookup, hb, ih]

theorem lookup_filter_not_overridden {α : Type} (k : String)
    (a b : List (String × α)) (hb : List.lookup k b = none) :
    List.lookup k (a.filter (fun p => (b.lookup p.1).isNone)) =
      List.lookup k a := by
  induction a with
  | nil => simp
  | cons p rest ih =>
    cases p with
    | mk k' v =>
      by_cases h : k = k'
      · subst h
        simp [List.filter, hb, List.lookup]
      · have hbeq : (k == k') = false := beq_false_of_ne h
        cases hkept : (List.lookup k' b).isNone with
        | true => simp [List.filter, hkept, List.lookup, hbeq, ih]
        | false => simp [List.filter, hkept, List.lookup, hbeq, ih]

/-- Key-value semantics of `pyDictMerge`: the second dict wins. -/
theorem lookup_pyDictMerge {α : Type} (k : String) (a b : List (String × α)) :
    List.lookup k (pyDictMerge a b) =
      (List.lookup k b).orElse (fun _ => List.lookup k a) := by
  unfold pyDictMerge
  rw [lookup_append]
  cases hb : List.lookup k b with
  | some v => simp [Option.orElse]
  | none => simp [Option.orElse, lookup_filter_not_overridden k a b hb]

/-! ## Synchronization orchestrator (`sync_devices`) -/

/-- Exceptions raised by `sync_devices`.  The code raises plain
`Exception`s; the constructors tag the two distinct raise sites:
`hashFailed` for "Failed to get configuration hash" and `driftAborted`
for "Configuration for ... is altered outside of CNaaS". -/
inductive SyncError where
  | hashFailed
  | driftAborted : List String → SyncError
  deriving DecidableEq, Repr

/-- Inputs of one `sync_devices` run.  `devices` is `device_list` (the
filtered Nornir inventory); `storedHash` is `Device.get_config_hash`;
`runningHash` is `get_running_config_hash` before any push; `pushFailed`
records which hosts end up in `nrresult.failed_hosts`; `postHash` is
`get_running_config_hash` after the push; `synchronized` is the initial
per-device flag in the database. -/
structure SyncInput where
  devices : List String
  storedHash : String → Option Nat
  runningHash : String → Option Nat
  pushFailed : String → Bool
  postHash : String → Option Nat
  synchronized : String → Bool

/-- The database state `sync_devices` can mutate: per-device stored
fingerprints and `synchronized` flags. -/
structure SyncDbState where
  storedHash : String → Option Nat
  synchronized : String → Bool

/-- Result of one `sync_devices` run: final database state, the hosts
that were actually handed to `nr_filtered.run` (empty when the run
aborted in the drift gate), and either the raised exception or the
`failed_hosts` report. -/
structure SyncOutcome where
  db : SyncDbState
  attempted : List String
  result : Except SyncError (List String)

/-- Drift gate loop of `sync_devices` (lines 218-228): skip devices with
no stored hash, raise if the running-config hash of a checked device is
unavailable, and collect the devices whose stored and running hashes
differ (`alterned_devices`). -/
def driftGate (stored running : String → Option Nat) :
    List String → Except SyncError (List String)
  | [] => .ok []
  | d :: rest =>
    match stored d with
    | none => driftGate stored running rest
    | some sh =>
      match running d with
      | none => .error .hashFailed
      | some ch =>
        match driftGate stored running rest with
        | .error e => .error e
        | .ok l => .ok (if sh = ch then l else d :: l)

/-- Function update at one key. -/
def setAt {α : Type} (f : String → α) (k : String) (v : α) : String → α :=
  fun x => if x = k then v else f x

/-- Post-push fingerprint persistence loop (lines 242-248): for every
non-failed host recompute the running-config hash and store it via
`Device.set_config_hash`; a missing hash raises mid-loop, keeping the
updates already made. -/
def setHashes (failedHosts : List String) (postHash : String → Option Nat) :
    List String → (String → Option Nat) →
      (String → Option Nat) × Option SyncError
  | [], st => (st, none)
  | k :: rest, st =>
    if k ∈ failedHosts then setHashes failedHosts postHash rest st
    else
      match postHash k with
      | none => (st, some .hashFailed)
      | some h => setHashes failedHosts postHash rest (setAt st k (some h))

/-- Synchronized-flag update loop (lines 250-256): set
`synchronized = true` for every selected host that did not fail. -/
def setSyncFlags (failedHosts : List String) :
    List String → (String → Bool) → (String → Bool)
  | [], st => st
  | k :: rest, st =>
    if k ∈ failedHosts then setSyncFlags failedHosts rest st
    else setSyncFlags failedHosts rest (setAt st k true)

/-- The `sync_devices` orchestration (lines 205-261), after device
selection: run the drift gate; abort if any device is altered and
`force` is false; otherwise fan out `push_sync_device` over all selected
hosts (per-host failures are recorded in `failed_hosts`, never raised);
for non-dry runs persist the new fingerprints of non-failed hosts and
then mark them synchronized. -/
def sync_devices (w : SyncInput) (dry_run force : Bool) : SyncOutcome :=
  let init : SyncDbState := ⟨w.storedHash, w.synchronized⟩
  match driftGate w.storedHash w.runningHash w.devices with
  | .error e => ⟨init, [], .error e⟩
  | .ok alterned =>
    if alterned ≠ [] ∧ force = false then
      ⟨init, [], .error (.driftAborted alterned)⟩
    else
      let failedHosts := w.devices.filter w.pushFailed
      if dry_run then ⟨init, w.devices, .ok failedHosts⟩
      else
        match setHashes failedHosts w.postHash w.devices w.storedHash with
        | (hashes, some e) => ⟨⟨hashes, w.synchronized⟩, w.devices, .error e⟩
        | (hashes, none) =>
          ⟨⟨hashes, setSyncFlags failedHosts w.devices w.synchronized⟩,
            w.devices, .ok failedHosts⟩

/-! ## Per-device variable derivation (`push_sync_device`, lines 38-126) -/

/-- Exceptions that can abort the variable derivation of one device.
The code raises builtin Python exceptions; the constructors tag the
distinct raise sites: `noMgmtIp` for the missing-management-IP raise,
`noUplinks` and `noMgmtdomain` for the two ACCESS-branch raises,
`keyError` for a missing dict key, `nameError` for reading the unbound
local `ifindexnum`, `typeError` for subscripting or iterating a
non-dict/non-list value, `valueError` for an unparseable gateway
address. -/
inductive DeriveError where
  | noMgmtIp
  | noUplinks
  | noMgmtdomain
  | keyError
  | nameError
  | typeError
  | valueError
  deriving DecidableEq, Repr

/-- A `Mgmtdomain` record as used by `push_sync_device`: the fields read
from `cnaas_nms.db.mgmtdomain` rows (`ipv4_gw` is the textual gateway
address with prefix length, e.g. "10.0.6.1/24"). -/
structure Mgmtdomain where
  ipv4_gw : String
  vlan : Nat
  description : String
  esi_mac : String

/-- One `Interface` row of the device, with the two columns the common
variable loop reads (lines 105-113). -/
structure DbIntf where
  name : String
  configtype : InterfaceConfigType

/-- Inputs of the derivation for one device: the device row fields and
the answers of the external collaborators.  `mgmtIp` is
`dev.management_ip` rendered as text; `intfs` is the device's interface
rows; `uplinkPeers` is `dev.get_uplink_peers(session)`; `findMgmtdomain`
is `cnaas_nms.db.helper.find_mgmtdomain`; `allMgmtdomains` is
`cnaas_nms.db.helper.get_all_mgmtdomains(session, hostname)`;
`indexLookup` is `Interface.interface_index_num` with `none` standing
for a raised `ValueError`. -/
structure DeriveInput where
  mgmtIp : Option String
  intfs : List DbIntf
  uplinkPeers : List String
  findMgmtdomain : List String → Option Mgmtdomain
  allMgmtdomains : List Mgmtdomain
  indexLookup : String → Option Nat

/-- Python truthiness of a template-variable value. -/
def truthy : VarValue → Bool
  | .vstr s => !s.isEmpty
  | .vnat n => n != 0
  | .vlist l => !l.isEmpty
  | .vdict d => !d.isEmpty

/-- Python `d[k]` on a dict: the value, or a `KeyError`. -/
def dictGet (d : VarDict) (k : String) : Except DeriveError VarValue :=
  match d.lookup k with
  | some v => .ok v
  | none => .error .keyError

/-- The `ipaddress.IPv4Interface` constructor reduced to what the code
reads from it: the address part and the prefix length, split on the
slash (octet validation is the external library's concern); `none`
stands for a raised `ValueError`. -/
def parseIPv4If (s : String) : Option (String × Nat) :=
  match s.splitOn "/" with
  | [ip, plen] => (plen.toNat?).map (fun n => (ip, n))
  | _ => none

/-- Common variables of every device (lines 105-118): management IP and
the interface rows classified `ACCESS_UPLINK` / `ACCESS_AUTO`. -/
def commonDeviceVariables (mgmtIp : String) (intfs : List DbIntf) : VarDict :=
  [("mgmt_ip", .vstr mgmtIp),
   ("uplinks", .vlist (intfs.filterMap (fun i =>
      if i.configtype = .ACCESS_UPLINK then
        some (.vdict [("ifname", .vstr i.name)])
      else none))),
   ("access_auto", .vlist (intfs.filterMap (fun i =>
      if i.configtype = .ACCESS_AUTO then
        some (.vdict [("ifname", .vstr i.name)])
      else none)))]

/-- ACCESS branch (lines 51-68): require uplink peers and a management
domain for them, then build the four access variables from the domain
gateway. -/
def deriveAccess (inp : DeriveInput) (mgmtIp : String) :
    Except DeriveError VarDict :=
  if inp.uplinkPeers.isEmpty then .error .noUplinks
  else
    match inp.findMgmtdomain inp.uplinkPeers with
    | none => .error .noMgmtdomain
    | some md =>
      match parseIPv4If md.ipv4_gw with
      | none => .error .valueError
      | some (gwIp, plen) =>
        .ok [("mgmt_vlan_id", .vnat md.vlan),
             ("mgmt_gw", .vstr gwIp),
             ("mgmt_ipif", .vstr (mgmtIp ++ "/" ++ toString plen)),
             ("mgmt_prefixlen", .vnat plen)]

/-- Loop state of the DIST interfaces loop: the Python local
`ifindexnum` (`none` while unbound) and the accumulated interface
dicts. -/
structure LoopSt where
  ifindexnum : Option Nat
  acc : List VarValue

/-- One iteration of the DIST interfaces loop (lines 77-96).  The
`try`/`except ValueError: pass`/`else: ifindexnum = 0` statement means:
when `interface_index_num` succeeds its result is immediately
overwritten by the `else` clause with 0, and when it raises `ValueError`
the previous binding of `ifindexnum` (possibly none, giving a
`NameError` on use) is kept. -/
def distIntfStep (indexLookup : String → Option Nat) (st : LoopSt)
    (v : VarValue) : Except DeriveError LoopSt :=
  match v with
  | .vdict d =>
    match dictGet d "ifname" with
    | .error e => .error e
    | .ok ifnameV =>
      match ifnameV with
      | .vstr ifname =>
        let ifindexnum : Option Nat :=
          match indexLookup ifname with
          | some _ => some 0
          | none => st.ifindexnum
        match d.lookup "ifclass" with
        | some (.vstr c) =>
          if c = "downlink" then
            match dictGet d "name" with
            | .error e => .error e
            | .ok nameV =>
              match ifindexnum with
              | none => .error .nameError
              | some idx =>
                .ok ⟨ifindexnum, st.acc ++
                  [.vdict [("ifname", nameV), ("ifclass", .vstr c),
                           ("ifindexnum", .vnat idx)]]⟩
          else if c = "custom" then
            match dictGet d "name" with
            | .error e => .error e
            | .ok nameV =>
              match dictGet d "config" with
              | .error e => .error e
              | .ok cfgV =>
                match ifindexnum with
                | none => .error .nameError
                | some idx =>
                  .ok ⟨ifindexnum, st.acc ++
                    [.vdict [("ifname", nameV), ("ifclass", .vstr c),
                             ("config", cfgV),
                             ("ifindexnum", .vnat idx)]]⟩
          else .ok ⟨ifindexnum, st.acc⟩
        | some _ => .ok ⟨ifindexnum, st.acc⟩
        | none => .ok ⟨ifindexnum, st.acc⟩
      | _ => .error .typeError
  | _ => .error .typeError

/-- The DIST interfaces loop over `settings['interfaces']`. -/
def distIntfLoop (indexLookup : String → Option Nat) (st : LoopSt) :
    List VarValue → Except DeriveError LoopSt
  | [] => .ok st
  | v :: rest =>
    match distIntfStep indexLookup st v with
    | .error e => .error e
    | .ok st' => distIntfLoop indexLookup st' rest

/-- DIST branch (lines 69-103): base management variables, the
interfaces derived from `settings['interfaces']` (when present and
truthy), and one dict per management domain of the device. -/
def deriveDist (inp : DeriveInput) (mgmtIp : String) (settings : VarDict) :
    Except DeriveError VarDict :=
  let intfRes : Except DeriveError (List VarValue) :=
    match settings.lookup "interfaces" with
    | none => .ok []
    | some v =>
      if truthy v then
        match v with
        | .vlist l =>
          match distIntfLoop inp.indexLookup ⟨none, []⟩ l with
          | .error e => .error e
          | .ok st => .ok st.acc
        | _ => .error .typeError
      else .ok []
  match intfRes with
  | .error e => .error e
  | .ok intfVars =>
    .ok [("mgmt_ipif", .vstr (mgmtIp ++ "/32")),
         ("mgmt_prefixlen", .vnat 32),
         ("interfaces", .vlist intfVars),
         ("mgmtdomains", .vlist (inp.allMgmtdomains.map (fun md =>
            .vdict [("ipv4_gw", .vstr md.ipv4_gw),
                    ("vlan", .vnat md.vlan),
                    ("description", .vstr md.description),
                    ("esi_mac", .vstr md.esi_mac)])))]

/-- Variable derivation of `push_sync_device` (lines 41-122): require a
management IP, branch on the device role (only ACCESS and DIST have a
branch), compute the common variables, and merge the role-specific dict
under the common one (lines 119-122: `\x7b**role_vars,
**device_variables\x7d`, common keys win).  A role with no branch keeps
only the common variables. -/
def deriveDeviceVariables (devtype : DeviceType) (inp : DeriveInput)
    (settings : VarDict) : Except DeriveError VarDict :=
  match inp.mgmtIp with
  | none => .error .noMgmtIp
  | some mgmtIp =>
    let common := commonDeviceVariables mgmtIp inp.intfs
    match devtype with
    | .ACCESS =>
      match deriveAccess inp mgmtIp with
      | .error e => .error e
      | .ok av => .ok (pyDictMerge av common)
    | .DIST =>
      match deriveDist inp mgmtIp settings with
      | .error e => .error e
      | .ok dv => .ok (pyDictMerge dv common)
    | .CORE => .ok common

/-- Line 126: `template_vars = \x7b**device_variables, **settings\x7d` —
the merge of the derived variables with the resolved settings that is
passed to the template renderer. -/
def template_vars (device_variables settings : VarDict) : VarDict :=
  pyDictMerge device_variables settings

/-- Derivation followed by the settings merge: the full template
variable set `push_sync_device` hands to the renderer. -/
def push_sync_device_template_vars (devtype : DeviceType)
    (inp : DeriveInput) (settings : VarDict) : Except DeriveError VarDict :=
  match deriveDeviceVariables devtype inp settings with
  | .error e => .error e
  | .ok dv => .ok (template_vars dv settings)

/-! ## Settings API (`api/settings.py`, `SettingsApi.get`) -/

/-- Python `str.upper()` (an external builtin): character-wise
uppercasing of the argument string. -/
def pyUpper (s : String) : String :=
  String.mk (s.data.map Char.toUpper)

/-- Parsing of a role name string, the model of
`DeviceType.has_name` / `DeviceType[...]` from the missing
`db/device.py`.  Modelled from the spec: the role enumeration is the
closed set ACCESS | DISTRIBUTION (member `DIST`) | CORE, so a string is
a role name exactly when it is one of the member names. -/
def parseDeviceTypeName : String → Option DeviceType
  | "ACCESS" => some .ACCESS
  | "DIST" => some .DIST
  | "CORE" => some .CORE
  | _ => none

/-- The environment `SettingsApi.get` consults: hostname format
validation (`Device.valid_hostname`) and the stored device's role
(`one_or_none` lookup by hostname). -/
structure SettingsDb where
  validHostname : String → Bool
  deviceTypeOf : String → Option DeviceType

/-- Observable outcome of `SettingsApi.get`: either an error response
(HTTP 400 with the given message) or the pair of arguments the handler
passes to `get_settings`. -/
inductive ApiOutcome where
  | err : String → ApiOutcome
  | okCall : Option String → Option DeviceType → ApiOutcome
  deriving DecidableEq, Repr

/-- The second half of `SettingsApi.get` (lines 27-34): when a
`device_type` query argument is present, validate it and overwrite the
local `device_type` with the parsed value, then call `get_settings`. -/
def settingsApiDeviceTypeStep (argDeviceType : Option String)
    (hostname : Option String) (inferred : Option DeviceType) : ApiOutcome :=
  match argDeviceType with
  | none => .okCall hostname inferred
  | some s =>
    match parseDeviceTypeName (pyUpper s) with
    | some dt => .okCall hostname (some dt)
    | none => .err "Invalid device type specified"

/-- `SettingsApi.get` (lines 11-38): validate and resolve a `hostname`
argument (inferring the role from the stored device), then process a
`device_type` argument, then call `get_settings hostname device_type`. -/
def settingsApiGet (db : SettingsDb) (argHostname argDeviceType : Option String) :
    ApiOutcome :=
  match argHostname with
  | none => settingsApiDeviceTypeStep argDeviceType none none
  | some hn =>
    if db.validHostname hn then
      match db.deviceTypeOf hn with
      | some dt => settingsApiDeviceTypeStep argDeviceType (some hn) (some dt)
      | none => .err "Hostname not found in database"
    else .err "Invalid hostname specified"

/-! ## Database session context manager (`db/session.py`, `sqla_session`) -/

/-- A SQLAlchemy session over a database of persisted state `σ`: the
committed state, the session's pending in-memory view, and whether the
session has been closed. -/
structure Session (σ : Type) where
  persisted : σ
  pending : σ
  closed : Bool

/-- `session.commit()`: make the pending view the persisted state. -/
def Session.commit {σ : Type} (s : Session σ) : Session σ :=
  { s with persisted := s.pending }

/-- `session.rollback()`: discard the pending view. -/
def Session.rollback {σ : Type} (s : Session σ) : Session σ :=
  { s with pending := s.persisted }

/-- `session.close()`. -/
def Session.close {σ : Type} (s : Session σ) : Session σ :=
  { s with closed := true }

/-- The body of a `with sqla_session() as session:` block: from the
session's pending view it produces the mutated view and, when it raises,
the exception. -/
def BlockRun (σ ε : Type) : Type := σ → σ × Option ε

/-- The `sqla_session` context manager (lines 38-53): open a session on
the persisted state, run the block, commit on normal completion,
roll back and re-raise on any exception, and close the session in all
cases.  Returns the final session and the exception propagated to the
caller, if any. -/
def sqla_session {σ ε : Type} (persisted : σ) (block : BlockRun σ ε) :
    Session σ × Option ε :=
  let s0 : Session σ := ⟨persisted, persisted, false⟩
  match block s0.pending with
  | (p, none) => (({ s0 with pending := p }).commit.close, none)
  | (p, some e) => (({ s0 with pending := p }).rollback.close, some e)

/-! ## Concrete instances used by witnesses and counterexamples -/

/-- A CORE device with management IP 10.0.1.22 and no interface rows. -/
def c1Inp : DeriveInput :=
  ⟨some "10.0.1.22", [], [], fun _ => none, [], fun _ => none⟩

/-- Resolved settings carrying a key that collides with the derived
`mgmt_ip` variable. -/
def c1Settings : VarDict := [("mgmt_ip", .vstr "9.9.9.9")]

/-- A settings interface entry classified `downlink`. -/
def c4Intf : VarValue :=
  .vdict [("ifname", .vstr "Ethernet1"), ("name", .vstr "Ethernet1"),
          ("ifclass", .vstr "downlink")]

/-- An interface-index parser that succeeds on `Ethernet1` with index 1. -/
def c4Lookup : String → Option Nat :=
  fun s => if s = "Ethernet1" then some 1 else none

/-- A CORE device with one uplink-classified and one auto-access
interface row. -/
def c5Inp : DeriveInput :=
  ⟨some "10.0.1.22",
   [⟨"Ethernet1", .ACCESS_UPLINK⟩, ⟨"Ethernet2", .ACCESS_AUTO⟩],
   [], fun _ => none, [], fun _ => none⟩

/-- A settings database where device `sw1` exists with role ACCESS. -/
def c6Db : SettingsDb :=
  ⟨fun h => h == "sw1", fun h => if h = "sw1" then some .ACCESS else none⟩

/-- One selected device `sw1` whose stored and running hashes differ. -/
def w2 : SyncInput :=
  ⟨["sw1"], fun _ => some 1, fun _ => some 2, fun _ => false,
   fun _ => none, fun _ => false⟩

/-- Two selected devices, no stored hashes, `sw2` fails its push, and a
post-push hash is available for the succeeding `sw1`. -/
def w3 : SyncInput :=
  ⟨["sw1", "sw2"], fun _ => none, fun _ => none, fun h => h == "sw2",
   fun h => if h = "sw1" then some 7 else none, fun _ => false⟩

/-- Stored hashes: none for `sw9`, present for every other device. -/
def c8Stored : String → Option Nat :=
  fun h => if h = "sw9" then none else some 8

/-- A running-hash oracle that does fingerprint `sw9`. -/
def c8Run : String → Option Nat :=
  fun h => if h = "sw9" then some 3 else some 8

/-- A running-hash oracle that cannot fingerprint `sw9`, agreeing with
`c8Run` everywhere else. -/
def c8Run2 : String → Option Nat :=
  fun h => if h = "sw9" then none else some 8

/-- One selected device `sw1` with a stored hash whose running-config
hash cannot be computed. -/
def w9 : SyncInput :=
  ⟨["sw1"], fun _ => some 1, fun _ => none, fun _ => false,
   fun _ => none, fun _ => false⟩

/-! ## Helper lemmas -/

theorem driftGate_mem_drifted (stored running : String → Option Nat)
    (d : String) (sh ch : Nat) (hs : stored d = some sh)
    (hr : running d = some ch) (hne : sh ≠ ch) :
    ∀ (devs : List String) (al : List String), d ∈ devs →
      driftGate stored running devs = .ok al → d ∈ al := by
  intro devs
  induction devs with
  | nil => intro al hd; cases hd
  | cons x rest ih =>
    intro al hd hal
    rcases List.mem_cons.mp hd with hx | hdr
    · subst hx
      simp only [driftGate, hs, hr] at hal
      split at hal
      · cases hal
      · rw [if_neg hne] at hal
        cases hal
        exact List.mem_cons_self _ _
    · simp only [driftGate] at hal
      split at hal
      · exact ih al hdr hal
      · split at hal
        · cases hal
        · rename_i hrest
          split at hal
          · cases hal
          · rename_i l hok
            have hdl : d ∈ l := ih l hdr hok
            cases hal
            split
            · exact hdl
            · exact List.mem_cons_of_mem _ hdl

theorem driftGate_missing_hash (stored running : String → Option Nat)
    (d : String) (sh : Nat) (hs : stored d = some sh)
    (hr : running d = none) :
    ∀ devs : List String, d ∈ devs →
      driftGate stored running devs = .error .hashFailed := by
  intro devs
  induction devs with
  | nil => intro hd; cases hd
  | cons x rest ih =>
    intro hd
    rcases List.mem_cons.mp hd with hx | hdr
    · subst hx
      simp only [driftGate, hs, hr]
    · simp only [driftGate]
      cases hsx : stored x with
      | none => exact ih hdr
      | some shx =>
        cases hrx : running x with
        | none => rfl
        | some chx => simp only [ih hdr]

theorem driftGate_null_independent (stored r r2 : String → Option Nat)
    (d : String) (hnull : stored d = none)
    (hagree : ∀ x, x ≠ d → r x = r2 x) :
    ∀ devs : List String,
      driftGate stored r devs = driftGate stored r2 devs := by
  intro devs
  induction devs with
  | nil => rfl
  | cons x rest ih =>
    simp only [driftGate]
    cases hsx : stored x with
    | none => exact ih
    | some shx =>
      have hxd : x ≠ d := by
        intro h; rw [h, hnull] at hsx; cases hsx
      rw [hagree x hxd, ih]

theorem driftGate_null_not_drifted (stored running : String → Option Nat)
    (d : String) (hnull : stored d = none) :
    ∀ (devs : List String) (al : List String),
      driftGate stored running devs = .ok al → d ∉ al := by
  intro devs
  induction devs with
  | nil => intro al hal; cases hal; exact List.not_mem_nil _
  | cons x rest ih =>
    intro al hal
    simp only [driftGate] at hal
    split at hal
    · exact ih al hal
    · rename_i hsx
      split at hal
      · cases hal
      · split at hal
        · cases hal
        · rename_i l hok
          have hdl : d ∉ l := ih l hok
          have hxd : d ≠ x := by
            intro h; rw [← h] at hsx; rw [hnull] at hsx; cases hsx
          cases hal
          split
          · exact hdl
          · intro hmem
            rcases List.mem_cons.mp hmem with h | h
            · exact hxd h
            · exact hdl h

theorem setHashes_spec (failedHosts : List String)
    (postHash : String → Option Nat) :
    ∀ (keys : List String) (st : String → Option Nat),
      (∀ k, k ∈ keys → k ∉ failedHosts → (postHash k).isSome) →
      (setHashes failedHosts postHash keys st).2 = none ∧
      ∀ x, (setHashes failedHosts postHash keys st).1 x =
        if x ∈ keys ∧ x ∉ failedHosts then postHash x else st x := by
  intro keys
  induction keys with
  | nil =>
    intro st hall
    refine ⟨rfl, ?_⟩
    intro x
    simp [setHashes]
  | cons k rest ih =>
    intro st hall
    by_cases hk : k ∈ failedHosts
    · obtain ⟨h1, h2⟩ :=
        ih st (fun a ha hn => hall a (List.mem_cons_of_mem _ ha) hn)
      refine ⟨?_, ?_⟩
      · simpa [setHashes, hk] using h1
      · intro x
        rw [show setHashes failedHosts postHash (k :: rest) st =
              setHashes failedHosts postHash rest st by
            simp [setHashes, hk]]
        rw [h2 x]
        by_cases hx : x = k
        · subst hx
          simp [hk]
        · simp [List.mem_cons, hx]
    · have hps := hall k (List.mem_cons_self _ _) hk
      obtain ⟨h, hh⟩ := Option.isSome_iff_exists.mp hps
      obtain ⟨h1, h2⟩ :=
        ih (setAt st k (some h))
          (fun a ha hn => hall a (List.mem_cons_of_mem _ ha) hn)
      have hstep : setHashes failedHosts postHash (k :: rest) st =
          setHashes failedHosts postHash rest (setAt st k (some h)) := by
        simp [setHashes, hk, hh]
      refine ⟨by rw [hstep]; exact h1, ?_⟩
      intro x
      rw [hstep, h2 x]
      by_cases hx : x = k
      · subst hx
        by_cases hxr : x ∈ rest
        · simp [hxr, hk, setAt]
        · simp [hxr, hk, setAt, hh]
      · by_cases hxr : x ∈ rest
        · simp [List.mem_cons, hx, hxr, setAt]
        · simp [List.mem_cons, hx, hxr, setAt]

theorem setSyncFlags_spec (failedHosts : List String) :
    ∀ (keys : List String) (st : String → Bool) (x : String),
      setSyncFlags failedHosts keys st x =
        if x ∈ keys ∧ x ∉ failedHosts then true else st x := by
  intro keys
  induction keys with
  | nil =>
    intro st x
    simp [setSyncFlags]
  | cons k rest ih =>
    intro st x
    by_cases hk : k ∈ failedHosts
    · rw [show setSyncFlags failedHosts (k :: rest) st =
            setSyncFlags failedHosts rest st by simp [setSyncFlags, hk]]
      rw [ih st x]
      by_cases hx : x = k
      · subst hx
        simp [hk]
      · simp [List.mem_cons, hx]
    · rw [show setSyncFlags failedHosts (k :: rest) st =
            setSyncFlags failedHosts rest (setAt st k true) by
          simp [setSyncFlags, hk]]
      rw [ih (setAt st k true) x]
      by_cases hx : x = k
      · subst hx
        by_cases hxr : x ∈ rest
        · simp [hxr, hk, setAt]
        · simp [hxr, hk, setAt]
      · by_cases hxr : x ∈ rest
        · simp [List.mem_cons, hx, hxr, setAt]
        · simp [List.mem_cons, hx, hxr, setAt]

/-! ## Claim theorems -/

/-- C2: in a run with `force = false` where some selected device is
drifted (stored fingerprint present and different from the freshly
computed one), `sync_devices` aborts before any device pipeline starts:
no host is handed to the push fan-out, every device's stored fingerprint
and synchronized flag are unchanged, and an exception is raised. -/
theorem sync_devices_drift_abort (w : SyncInput) (dry_run : Bool)
    (d : String) (sh ch : Nat) (hd : d ∈ w.devices)
    (hs : w.storedHash d = some sh) (hr : w.runningHash d = some ch)
    (hne : sh ≠ ch) :
    (sync_devices w dry_run false).attempted = [] ∧
    (sync_devices w dry_run false).db.storedHash = w.storedHash ∧
    (sync_devices w dry_run false).db.synchronized = w.synchronized ∧
    ∃ e, (sync_devices w dry_run false).result = .error e := by
  cases hg : driftGate w.storedHash w.runningHash w.devices with
  | error e =>
    refine ⟨?_, ?_, ?_, e, ?_⟩ <;> simp [sync_devices, hg]
  | ok al =>
    have hmem : d ∈ al :=
      driftGate_mem_drifted w.storedHash w.runningHash d sh ch hs hr hne
        w.devices al hd hg
    have hne2 : al ≠ [] := List.ne_nil_of_mem hmem
    refine ⟨?_, ?_, ?_, .driftAborted al, ?_⟩ <;>
      simp [sync_devices, hg, hne2]

theorem sync_devices_drift_abort_witness :
    "sw1" ∈ w2.devices ∧ w2.storedHash "sw1" = some 1 ∧
    w2.runningHash "sw1" = some 2 ∧ (1 : Nat) ≠ 2 ∧
    ((sync_devices w2 true false).attempted = [] ∧
     (sync_devices w2 true false).db.storedHash = w2.storedHash ∧
     (sync_devices w2 true false).db.synchronized = w2.synchronized ∧
     ∃ e, (sync_devices w2 true false).result = .error e) :=
  ⟨by decide, rfl, rfl, by decide,
   sync_devices_drift_abort w2 true "sw1" 1 2 (by decide) rfl rfl (by decide)⟩

/-- C7: a dry-run never mutates any device's stored fingerprint or
synchronized flag, whatever the drift gate and the per-host outcomes
are. -/
theorem sync_devices_dry_run_pure (w : SyncInput) (force : Bool) :
    (sync_devices w true force).db.storedHash = w.storedHash ∧
    (sync_devices w true force).db.synchronized = w.synchronized := by
  cases hg : driftGate w.storedHash w.runningHash w.devices with
  | error e => constructor <;> simp [sync_devices, hg]
  | ok al =>
    by_cases hal : al = [] <;> cases force <;> constructor <;>
      simp [sync_devices, hg, hal]

/-- C8: a device with no stored fingerprint never reports drift: the
drift gate's result does not depend on that device's running-config
fingerprint at all (the device is not fingerprinted), and the device is
never in the returned `alterned_devices` list. -/
theorem driftGate_null_fingerprint (stored r r2 : String → Option Nat)
    (devs : List String) (d : String) (hnull : stored d = none)
    (hagree : ∀ x, x ≠ d → r x = r2 x) :
    driftGate stored r devs = driftGate stored r2 devs ∧
    ∀ al, driftGate stored r devs = .ok al → d ∉ al :=
  ⟨driftGate_null_independent stored r r2 d hnull hagree devs,
   fun al => driftGate_null_not_drifted stored r d hnull devs al⟩

theorem driftGate_null_fingerprint_witness :
    c8Stored "sw9" = none ∧
    (∀ x, x ≠ "sw9" → c8Run x = c8Run2 x) ∧
    (driftGate c8Stored c8Run ["sw9", "swA"] =
       driftGate c8Stored c8Run2 ["sw9", "swA"] ∧
     ∀ al, driftGate c8Stored c8Run ["sw9", "swA"] = .ok al →
       "sw9" ∉ al) :=
  ⟨by decide, fun x hx => by simp [c8Run, c8Run2, hx],
   driftGate_null_fingerprint c8Stored c8Run c8Run2 ["sw9", "swA"] "sw9"
     (by decide) (fun x hx => by simp [c8Run, c8Run2, hx])⟩

/-- C9: if the drift gate cannot compute the running-config fingerprint
of a selected device that has a stored fingerprint, the whole run aborts
with the hash-failure exception before any device is pushed, for every
value of `force` and `dry_run`, leaving all state unchanged. -/
theorem sync_devices_hash_failure (w : SyncInput) (dry_run force : Bool)
    (d : String) (sh : Nat) (hd : d ∈ w.devices)
    (hs : w.storedHash d = some sh) (hr : w.runningHash d = none) :
    (sync_devices w dry_run force).attempted = [] ∧
    (sync_devices w dry_run force).db.storedHash = w.storedHash ∧
    (sync_devices w dry_run force).db.synchronized = w.synchronized ∧
    (sync_devices w dry_run force).result = .error .hashFailed := by
  have hg := driftGate_missing_hash w.storedHash w.runningHash d sh hs hr
    w.devices hd
  refine ⟨?_, ?_, ?_, ?_⟩ <;> simp [sync_devices, hg]

theorem sync_devices_hash_failure_witness :
    "sw1" ∈ w9.devices ∧ w9.storedHash "sw1" = some 1 ∧
    w9.runningHash "sw1" = none ∧
    ((sync_devices w9 false true).attempted = [] ∧
     (sync_devices w9 false true).db.storedHash = w9.storedHash ∧
     (sync_devices w9 false true).db.synchronized = w9.synchronized ∧
     (sync_devices w9 false true).result = .error .hashFailed) :=
  ⟨by decide, rfl, rfl,
   sync_devices_hash_failure w9 false true "sw1" 1 (by decide) rfl rfl⟩

/-- C3: in a non-dry run that passes the drift gate and whose post-push
fingerprints are computable, every selected host is handed to the
fan-out (one host's failure never removes the others), the run reports
exactly the failed hosts, and afterwards each failed host keeps its
prior fingerprint and synchronized flag while each succeeded host has
its fingerprint replaced by the freshly computed one and its
synchronized flag set to true. -/
theorem sync_devices_partial_failure (w : SyncInput) (force : Bool)
    (al : List String)
    (hg : driftGate w.storedHash w.runningHash w.devices = .ok al)
    (hforce : al = [] ∨ force = true)
    (hpost : ∀ d, d ∈ w.devices → w.pushFailed d = false →
      (w.postHash d).isSome) :
    (sync_devices w false force).attempted = w.devices ∧
    (sync_devices w false force).result =
      .ok (w.devices.filter w.pushFailed) ∧
    ∀ d, d ∈ w.devices →
      (w.pushFailed d = true →
        (sync_devices w false force).db.storedHash d = w.storedHash d ∧
        (sync_devices w false force).db.synchronized d =
          w.synchronized d) ∧
      (w.pushFailed d = false →
        (sync_devices w false force).db.storedHash d = w.postHash d ∧
        (sync_devices w false force).db.synchronized d = true) := by
  have hall : ∀ k, k ∈ w.devices → k ∉ w.devices.filter w.pushFailed →
      (w.postHash k).isSome := by
    intro k hk hnf
    cases hpf : w.pushFailed k with
    | false => exact hpost k hk hpf
    | true => exact absurd (List.mem_filter.mpr ⟨hk, hpf⟩) hnf
  obtain ⟨hs2, hfun⟩ := setHashes_spec (w.devices.filter w.pushFailed)
    w.postHash w.devices w.storedHash hall
  obtain ⟨st1, hsh⟩ : ∃ st1, setHashes (w.devices.filter w.pushFailed)
      w.postHash w.devices w.storedHash = (st1, none) :=
    ⟨_, by rw [← hs2]⟩
  have hfun1 : ∀ x, st1 x =
      if x ∈ w.devices ∧ x ∉ w.devices.filter w.pushFailed then
        w.postHash x else w.storedHash x := by
    intro x
    have h := hfun x
    rw [hsh] at h
    exact h
  have hcond : ¬(al ≠ [] ∧ force = false) := by
    rcases hforce with h | h
    · intro hc; exact hc.1 h
    · intro hc; rw [h] at hc; cases hc.2
  have hsync : sync_devices w false force =
      ⟨⟨st1, setSyncFlags (w.devices.filter w.pushFailed) w.devices
          w.synchronized⟩,
       w.devices, .ok (w.devices.filter w.pushFailed)⟩ := by
    simp [sync_devices, hg, hcond, hsh]
  refine ⟨by rw [hsync], by rw [hsync], ?_⟩
  intro d hd
  rw [hsync]
  constructor
  · intro hpf
    have hdf : d ∈ w.devices.filter w.pushFailed :=
      List.mem_filter.mpr ⟨hd, hpf⟩
    constructor
    · show st1 d = w.storedHash d
      rw [hfun1 d, if_neg (fun hc => hc.2 hdf)]
    · show setSyncFlags (w.devices.filter w.pushFailed) w.devices
        w.synchronized d = w.synchronized d
      rw [setSyncFlags_spec (w.devices.filter w.pushFailed) w.devices
        w.synchronized d, if_neg (fun hc => hc.2 hdf)]
  · intro hpf
    have hdf : d ∉ w.devices.filter w.pushFailed := by
      intro hmem
      have hm2 := (List.mem_filter.mp hmem).2
      rw [hpf] at hm2
      cases hm2
    constructor
    · show st1 d = w.postHash d
      rw [hfun1 d, if_pos ⟨hd, hdf⟩]
    · show setSyncFlags (w.devices.filter w.pushFailed) w.devices
        w.synchronized d = true
      rw [setSyncFlags_spec (w.devices.filter w.pushFailed) w.devices
        w.synchronized d, if_pos ⟨hd, hdf⟩]

theorem sync_devices_partial_failure_witness :
    driftGate w3.storedHash w3.runningHash w3.devices = .ok [] ∧
    (([] : List String) = [] ∨ true = true) ∧
    (∀ d, d ∈ w3.devices → w3.pushFailed d = false →
      (w3.postHash d).isSome) ∧
    ((sync_devices w3 false true).attempted = w3.devices ∧
     (sync_devices w3 false true).result =
       .ok (w3.devices.filter w3.pushFailed) ∧
     ∀ d, d ∈ w3.devices →
       (w3.pushFailed d = true →
         (sync_devices w3 false true).db.storedHash d = w3.storedHash d ∧
         (sync_devices w3 false true).db.synchronized d =
           w3.synchronized d) ∧
       (w3.pushFailed d = false →
         (sync_devices w3 false true).db.storedHash d = w3.postHash d ∧
         (sync_devices w3 false true).db.synchronized d = true)) :=
  ⟨rfl, Or.inl rfl, by decide,
   sync_devices_partial_failure w3 true [] rfl (Or.inr rfl) (by decide)⟩

/-- C10: a `sqla_session` block is transactionally atomic: the session
is always closed; when the block completes normally its view is
committed as the new persisted state and no exception escapes; when the
block raises, the persisted state is left unchanged and the very same
exception is re-raised to the caller (never swallowed). -/
theorem sqla_session_atomic {σ ε : Type} (init : σ) (block : BlockRun σ ε) :
    (sqla_session init block).1.closed = true ∧
    (sqla_session init block).1.persisted =
      (match block init with
       | (p, none) => p
       | (_, some _) => init) ∧
    (sqla_session init block).2 = (block init).2 := by
  cases hb : block init with
  | mk p exc =>
    cases exc with
    | none =>
      refine ⟨?_, ?_, ?_⟩ <;>
        simp [sqla_session, hb, Session.commit, Session.close]
    | some e =>
      refine ⟨?_, ?_, ?_⟩ <;>
        simp [sqla_session, hb, Session.rollback, Session.close]

/-- C1 counterexample: in `template_vars = \x7b**device_variables,
**settings\x7d` the settings dict is unpacked last, so on the colliding
key `mgmt_ip` the merged value is the settings value, not the derived
device value. -/
theorem template_vars_derived_lose :
    (deriveDeviceVariables .CORE c1Inp c1Settings).map
        (fun dv => dv.lookup "mgmt_ip") = .ok (some (.vstr "10.0.1.22")) ∧
    (push_sync_device_template_vars .CORE c1Inp c1Settings).map
        (fun tv => tv.lookup "mgmt_ip") = .ok (some (.vstr "9.9.9.9")) ∧
    VarValue.vstr "9.9.9.9" ≠ VarValue.vstr "10.0.1.22" := by
  refine ⟨rfl, rfl, ?_⟩
  intro h
  injection h with h2
  exact absurd h2 (by decide)

/-- C1 amended: in the merge passed to the renderer the resolved
settings take precedence over the derived device/topology variables: for
every key present in both mappings the merged value is the settings
value. -/
theorem template_vars_settings_precedence (dv s : VarDict) (k : String)
    (v1 v2 : VarValue) (_hdv : dv.lookup k = some v1)
    (hs : s.lookup k = some v2) :
    (template_vars dv s).lookup k = some v2 := by
  unfold template_vars
  rw [lookup_pyDictMerge, hs]
  rfl

theorem template_vars_settings_precedence_witness :
    ([("mgmt_ip", VarValue.vstr "10.0.1.22")].lookup "mgmt_ip" =
       some (VarValue.vstr "10.0.1.22")) ∧
    (c1Settings.lookup "mgmt_ip" = some (VarValue.vstr "9.9.9.9")) ∧
    (template_vars [("mgmt_ip", VarValue.vstr "10.0.1.22")]
        c1Settings).lookup "mgmt_ip" = some (VarValue.vstr "9.9.9.9") :=
  ⟨rfl, rfl,
   template_vars_settings_precedence
     [("mgmt_ip", VarValue.vstr "10.0.1.22")] c1Settings "mgmt_ip"
     (VarValue.vstr "10.0.1.22") (VarValue.vstr "9.9.9.9") rfl rfl⟩

/-- C4: evaluation of the DIST interface loop at its decisive inputs.
The `try`/`except ValueError: pass`/`else: ifindexnum = 0` statement is
inverted with respect to the claimed behavior: on a successful
interface-index lookup (here index 1 for `Ethernet1`) the emitted
`ifindexnum` is 0, and on a failed lookup of the first interface the
local is unbound and the derivation aborts with a `NameError` instead of
defaulting to 0. -/
theorem distIntf_ifindexnum_inverted :
    c4Lookup "Ethernet1" = some 1 ∧
    distIntfLoop c4Lookup ⟨none, []⟩ [c4Intf] =
      .ok ⟨some 0,
        [.vdict [("ifname", .vstr "Ethernet1"),
                 ("ifclass", .vstr "downlink"),
                 ("ifindexnum", .vnat 0)]]⟩ ∧
    distIntfLoop (fun _ => none) ⟨none, []⟩ [c4Intf] =
      .error .nameError :=
  ⟨rfl, rfl, rfl⟩

/-- C5 counterexample: a CORE device is handled by neither role branch
and the derivation silently succeeds with exactly the common variables;
no role error of any kind is raised. -/
theorem deriveDeviceVariables_core_fallback :
    deriveDeviceVariables .CORE c5Inp [] =
      .ok (commonDeviceVariables "10.0.1.22" c5Inp.intfs) ∧
    commonDeviceVariables "10.0.1.22" c5Inp.intfs =
      [("mgmt_ip", .vstr "10.0.1.22"),
       ("uplinks", .vlist [.vdict [("ifname", .vstr "Ethernet1")]]),
       ("access_auto", .vlist [.vdict [("ifname", .vstr "Ethernet2")]])] :=
  ⟨rfl, rfl⟩

/-- C5 amended: the derivation branches only on ACCESS and DIST; every
device of any other role (with a management IP) silently proceeds with
only the common variables — there is no unsupported-role failure. -/
theorem deriveDeviceVariables_no_role_check (devtype : DeviceType)
    (inp : DeriveInput) (settings : VarDict) (ip : String)
    (hip : inp.mgmtIp = some ip)
    (hA : devtype ≠ .ACCESS) (hD : devtype ≠ .DIST) :
    deriveDeviceVariables devtype inp settings =
      .ok (commonDeviceVariables ip inp.intfs) := by
  cases devtype with
  | ACCESS => exact absurd rfl hA
  | DIST => exact absurd rfl hD
  | CORE => simp [deriveDeviceVariables, hip]

theorem deriveDeviceVariables_no_role_check_witness :
    c5Inp.mgmtIp = some "10.0.1.22" ∧
    DeviceType.CORE ≠ .ACCESS ∧ DeviceType.CORE ≠ .DIST ∧
    deriveDeviceVariables .CORE c5Inp [] =
      .ok (commonDeviceVariables "10.0.1.22" c5Inp.intfs) :=
  ⟨rfl, by decide, by decide,
   deriveDeviceVariables_no_role_check .CORE c5Inp [] "10.0.1.22" rfl
     (by decide) (by decide)⟩

/-- C6 counterexample: for a stored device `sw1` of role ACCESS and an
explicit `device_type=dist` argument, `SettingsApi.get` raises no
conflict error: it calls `get_settings` with the supplied role DIST,
silently overriding the inferred role. -/
theorem settingsApiGet_no_conflict_check :
    c6Db.deviceTypeOf "sw1" = some .ACCESS ∧
    settingsApiGet c6Db (some "sw1") (some "dist") =
      .okCall (some "sw1") (some .DIST) ∧
    DeviceType.DIST ≠ .ACCESS :=
  ⟨rfl, rfl, by decide⟩

/-- C6 amended: when both a hostname and an explicit device type are
supplied, the handler validates the device-type string only for being a
known role name and then overwrites the role inferred from the stored
device with it; `get_settings` is always called with the supplied role,
whether or not it matches the inferred one, and no conflict error
exists. -/
theorem settingsApiGet_supplied_role_wins (db : SettingsDb) (hn s : String)
    (dt1 dt2 : DeviceType) (hv : db.validHostname hn = true)
    (hinf : db.deviceTypeOf hn = some dt1)
    (hp : parseDeviceTypeName (pyUpper s) = some dt2) :
    settingsApiGet db (some hn) (some s) =
      .okCall (some hn) (some dt2) := by
  simp [settingsApiGet, settingsApiDeviceTypeStep, hv, hinf, hp]

theorem settingsApiGet_supplied_role_wins_witness :
    c6Db.validHostname "sw1" = true ∧
    c6Db.deviceTypeOf "sw1" = some .ACCESS ∧
    parseDeviceTypeName (pyUpper "dist") = some .DIST ∧
    settingsApiGet c6Db (some "sw1") (some "dist") =
      .okCall (some "sw1") (some .DIST) :=
  ⟨rfl, rfl, rfl,
   settingsApiGet_supplied_role_wins c6Db "sw1" "dist" .ACCESS .DIST
     rfl rfl rfl⟩

end Cnaas
